import Mathlib

/-!
Shallow embedding of the crypto trading-signal dashboard core
(`src/services/cryptoApi.ts`, the `LiveSignalFeed` component and the
`Dashboard` component), over ℚ for JavaScript numbers and `String` for
JavaScript strings.  Optional numeric fields (`number | undefined`) are
`Option ℚ`; JavaScript truthiness of such a field is `undefined` or `0`
being falsy.
-/

namespace CryptoBot

/-- The `'BUY' | 'SELL' | 'HOLD'` union type. -/
inductive SignalKind where
  | BUY
  | SELL
  | HOLD
  deriving Repr, DecidableEq

/-- The `'STRONG' | 'MODERATE' | 'WEAK'` union type. -/
inductive SignalStrength where
  | STRONG
  | MODERATE
  | WEAK
  deriving Repr, DecidableEq

/-- The `CoinGeckoMarket` interface of `src/services/cryptoApi.ts`
(the `roi: any | null` field is always `null` in this code base and is
modelled as `Option Unit`). -/
structure CoinGeckoMarket where
  id : String
  symbol : String
  name : String
  image : String
  current_price : ℚ
  market_cap : ℚ
  market_cap_rank : ℚ
  fully_diluted_valuation : Option ℚ
  total_volume : ℚ
  high_24h : ℚ
  low_24h : ℚ
  price_change_24h : ℚ
  price_change_percentage_24h : ℚ
  market_cap_change_24h : ℚ
  market_cap_change_percentage_24h : ℚ
  circulating_supply : ℚ
  total_supply : Option ℚ
  max_supply : Option ℚ
  ath : ℚ
  ath_change_percentage : ℚ
  ath_date : String
  atl : ℚ
  atl_change_percentage : ℚ
  atl_date : String
  roi : Option Unit
  last_updated : String
  deriving Repr, DecidableEq

/-- JavaScript `x.toFixed(2)`: render a number with exactly two decimal
digits, rounding half away from zero (exact-decimal behaviour). -/
def jsToFixed2 (q : ℚ) : String :=
  let scaled : ℤ := if q < 0 then -⌊-q * 100 + 1 / 2⌋ else ⌊q * 100 + 1 / 2⌋
  let sign := if scaled < 0 then "-" else ""
  let m := scaled.natAbs
  sign ++ toString (m / 100) ++ "." ++ (if m % 100 < 10 then "0" else "") ++ toString (m % 100)

/-- Result record of `generateTechnicalSignal`. -/
structure TechnicalSignal where
  signal : SignalKind
  strength : SignalStrength
  confidence : ℚ
  reasoning : String
  deriving Repr, DecidableEq

/-- `CryptoApiService.generateTechnicalSignal` from
`src/services/cryptoApi.ts` (lines 309–353): the if/else chain on the 24h
percentage change and the volume-to-market-cap comparison. -/
def generateTechnicalSignal (crypto : CoinGeckoMarket) : TechnicalSignal :=
  let priceChange := crypto.price_change_percentage_24h
  let volume := crypto.total_volume
  let marketCap := crypto.market_cap
  if priceChange > 5 ∧ volume > marketCap * 0.1 then
    { signal := SignalKind.BUY, strength := SignalStrength.STRONG, confidence := 85,
      reasoning := "Strong bullish momentum with " ++ jsToFixed2 priceChange ++
        "% gain and high volume. Technical indicators suggest continued upward movement." }
  else if priceChange > 2 then
    { signal := SignalKind.BUY, strength := SignalStrength.MODERATE, confidence := 70,
      reasoning := "Positive price action with " ++ jsToFixed2 priceChange ++
        "% gain. Moderate bullish sentiment with room for growth." }
  else if priceChange < -5 ∧ volume > marketCap * 0.1 then
    { signal := SignalKind.SELL, strength := SignalStrength.STRONG, confidence := 80,
      reasoning := "Significant bearish pressure with " ++ jsToFixed2 (abs priceChange) ++
        "% decline and high volume. Risk of further downside." }
  else if priceChange < -2 then
    { signal := SignalKind.SELL, strength := SignalStrength.MODERATE, confidence := 65,
      reasoning := "Negative price momentum with " ++ jsToFixed2 (abs priceChange) ++
        "% decline. Caution advised as trend may continue." }
  else
    { signal := SignalKind.HOLD,
      strength := if abs priceChange > 1 then SignalStrength.MODERATE else SignalStrength.WEAK,
      confidence := 60,
      reasoning := "Consolidation phase with " ++ jsToFixed2 priceChange ++
        "% change. Mixed signals suggest waiting for clearer direction." }

/-- The five-row decision table of the specification (§4.1), stated with
`volRatio = volume / marketCap`, evaluated top to bottom with the first
match winning.  Returns only the (kind, strength, confidence) triple — the
reasoning string is declared cosmetic by the specification. -/
def classifySpecTable (pct volRatio : ℚ) : SignalKind × SignalStrength × ℚ :=
  if pct > 5 ∧ volRatio > 0.1 then (SignalKind.BUY, SignalStrength.STRONG, 85)
  else if pct > 2 then (SignalKind.BUY, SignalStrength.MODERATE, 70)
  else if pct < -5 ∧ volRatio > 0.1 then (SignalKind.SELL, SignalStrength.STRONG, 80)
  else if pct < -2 then (SignalKind.SELL, SignalStrength.MODERATE, 65)
  else (SignalKind.HOLD, if abs pct > 1 then SignalStrength.MODERATE else SignalStrength.WEAK, 60)

/-- A convenient concrete market snapshot: all cosmetic fields fixed, the
three numeric fields the classifier reads supplied as arguments. -/
def mkMarket (pct volume marketCap : ℚ) : CoinGeckoMarket :=
  { id := "bitcoin", symbol := "btc", name := "Bitcoin", image := "",
    current_price := 100, market_cap := marketCap, market_cap_rank := 1,
    fully_diluted_valuation := none, total_volume := volume,
    high_24h := 105, low_24h := 95, price_change_24h := 1,
    price_change_percentage_24h := pct, market_cap_change_24h := 0,
    market_cap_change_percentage_24h := pct, circulating_supply := 1,
    total_supply := none, max_supply := none, ath := 200,
    ath_change_percentage := -50, ath_date := "2021-11-10T14:24:11.849Z",
    atl := 10, atl_change_percentage := 900,
    atl_date := "2020-03-13T02:22:55.391Z", roi := none,
    last_updated := "2024-01-01T00:00:00.000Z" }

/-- The `Cryptocurrency` interface of `Dashboard.tsx` / `CryptoBrowser.tsx`
(the optional `image?` is modelled as a plain string; the code only ever
reads it through `crypto.image || ''`). -/
structure Cryptocurrency where
  id : String
  symbol : String
  name : String
  currentPrice : ℚ
  priceChange24h : ℚ
  priceChangePercentage24h : ℚ
  marketCap : ℚ
  volume24h : ℚ
  lastUpdated : String
  image : String
  deriving Repr, DecidableEq

/-- The `LiveSignal` interface of the `LiveSignalFeed` component. -/
structure LiveSignal where
  id : String
  symbol : String
  signalType : SignalKind
  strength : SignalStrength
  confidenceScore : ℚ
  currentPrice : ℚ
  targetPrice : Option ℚ
  stopLoss : Option ℚ
  reasoning : String
  createdAt : String
  isActive : Bool
  performancePercentage : ℚ
  updatedAt : String
  deriving Repr, DecidableEq

/-- JavaScript truthiness of a `number | undefined` field: `undefined`
and `0` are falsy. -/
def truthy : Option ℚ → Bool
  | none => false
  | some v => v != 0

/-- The target/stop-loss if/else chain of `updateSignalPerformance`
(`LiveSignalFeed`, lines 134–174), yielding the `status` string the code
computes: `hit_target`, `hit_stop_loss` or `active`. -/
def tickStatus (signal : LiveSignal) (currentPrice : ℚ) : String :=
  if truthy signal.targetPrice ∧ signal.signalType = SignalKind.BUY ∧
      currentPrice ≥ signal.targetPrice.getD 0 then
    "hit_target"
  else if truthy signal.targetPrice ∧ signal.signalType = SignalKind.SELL ∧
      currentPrice ≤ signal.targetPrice.getD 0 then
    "hit_target"
  else if truthy signal.stopLoss ∧ signal.signalType = SignalKind.BUY ∧
      currentPrice ≤ signal.stopLoss.getD 0 then
    "hit_stop_loss"
  else if truthy signal.stopLoss ∧ signal.signalType = SignalKind.SELL ∧
      currentPrice ≥ signal.stopLoss.getD 0 then
    "hit_stop_loss"
  else "active"

/-- One signal's update inside the `updateSignalPerformance` loop
(`LiveSignalFeed`, lines 114–212).  Signals outside the
`signals.filter(s => s.isActive)` selection, and active signals whose
symbol has no matching entry in `cryptos` (`continue`), are returned
unchanged.  Otherwise the code computes the performance from the stored
`currentPrice` (read as `initialPrice`), decides the close status, and
writes back `currentPrice`, `performancePercentage`, `isActive` and
`updatedAt` (database writes and toast notifications are side effects with
no bearing on the record's fields). -/
def updateSignalStep (cryptos : List Cryptocurrency) (now : String)
    (signal : LiveSignal) : LiveSignal :=
  if signal.isActive then
    match cryptos.find? (fun c => c.symbol == signal.symbol) with
    | none => signal
    | some crypto =>
      let currentPrice := crypto.currentPrice
      let initialPrice := signal.currentPrice
      let performancePercentage :=
        if signal.signalType = SignalKind.BUY then
          (currentPrice - initialPrice) / initialPrice * 100
        else if signal.signalType = SignalKind.SELL then
          (initialPrice - currentPrice) / initialPrice * 100
        else 0
      let status := tickStatus signal currentPrice
      { signal with
          currentPrice := currentPrice,
          performancePercentage := performancePercentage,
          isActive := status == "active",
          updatedAt := now }
  else signal

/-- One full `updateSignalPerformance` pass: every signal in the list is
processed independently (the local-state update maps by id, and ids are
unique per creation event, so the pass is a map over the list). -/
def retick (cryptos : List Cryptocurrency) (now : String)
    (signals : List LiveSignal) : List LiveSignal :=
  signals.map (updateSignalStep cryptos now)

/-- A sequence of `updateSignalPerformance` passes, each with its own
snapshot list and timestamp. -/
def retickSeq (ticks : List (List Cryptocurrency × String))
    (signals : List LiveSignal) : List LiveSignal :=
  ticks.foldl (fun sigs t => retick t.1 t.2 sigs) signals

/-- The inline `CoinGeckoMarket` record both generators build from a
`Cryptocurrency` before calling `generateTechnicalSignal`
(`LiveSignalFeed` lines 237–264 with rank 1, `Dashboard` lines 171–198
with rank `i + 1`). -/
def toMarket (crypto : Cryptocurrency) (rank : ℚ) : CoinGeckoMarket :=
  { id := crypto.id, symbol := crypto.symbol.toLower, name := crypto.name,
    image := crypto.image, current_price := crypto.currentPrice,
    market_cap := crypto.marketCap, market_cap_rank := rank,
    fully_diluted_valuation := some crypto.marketCap,
    total_volume := crypto.volume24h,
    high_24h := crypto.currentPrice * 1.05,
    low_24h := crypto.currentPrice * 0.95,
    price_change_24h := crypto.priceChange24h,
    price_change_percentage_24h := crypto.priceChangePercentage24h,
    market_cap_change_24h := crypto.marketCap * (crypto.priceChangePercentage24h / 100),
    market_cap_change_percentage_24h := crypto.priceChangePercentage24h,
    circulating_supply := crypto.marketCap / crypto.currentPrice,
    total_supply := none, max_supply := none,
    ath := crypto.currentPrice * 2, ath_change_percentage := -50,
    ath_date := "2021-11-10T14:24:11.849Z",
    atl := crypto.currentPrice * 0.1, atl_change_percentage := 900,
    atl_date := "2020-03-13T02:22:55.391Z", roi := none,
    last_updated := crypto.lastUpdated }

/-- Insertion step for the `.sort((a, b) => Math.abs(b...) - Math.abs(a...))`
call: descending by absolute 24h percentage change. -/
def insertByAbsChange (c : Cryptocurrency) :
    List Cryptocurrency → List Cryptocurrency
  | [] => [c]
  | d :: ds =>
    if abs d.priceChangePercentage24h ≤ abs c.priceChangePercentage24h then
      c :: d :: ds
    else d :: insertByAbsChange c ds

/-- The generator's sort of the snapshot list, descending by absolute 24h
percentage change (`LiveSignalFeed`, lines 231–232). -/
def sortByAbsChange : List Cryptocurrency → List Cryptocurrency
  | [] => []
  | c :: cs => insertByAbsChange c (sortByAbsChange cs)

/-- `generateNewSignals` of the `LiveSignalFeed` component (lines
235–313).  The `Math.random()` draws are modelled by an oracle `rands`
giving, per loop index, the pair (target draw, stop-loss draw) in [0,1);
the `Date.now()`-based id and the ISO timestamp are the oracles `freshId`
and `now`.  HOLD classifications are skipped (`continue`). -/
def generateNewSignals (cryptos : List Cryptocurrency)
    (rands : ℕ → ℚ × ℚ) (freshId : ℕ → String) (now : String) :
    List LiveSignal :=
  let topCryptos := (sortByAbsChange cryptos).take 6
  topCryptos.enum.filterMap (fun ic =>
    let i := ic.1
    let crypto := ic.2
    let technicalSignal := generateTechnicalSignal (toMarket crypto 1)
    if technicalSignal.signal = SignalKind.HOLD then none
    else
      let targetPrice :=
        if technicalSignal.signal = SignalKind.BUY then
          crypto.currentPrice * (1 + (rands i).1 * 0.12 + 0.03)
        else
          crypto.currentPrice * (1 - (rands i).1 * 0.12 - 0.03)
      let stopLoss :=
        if technicalSignal.signal = SignalKind.BUY then
          crypto.currentPrice * (1 - (rands i).2 * 0.06 - 0.02)
        else
          crypto.currentPrice * (1 + (rands i).2 * 0.06 + 0.02)
      some { id := freshId i, symbol := crypto.symbol,
             signalType := technicalSignal.signal,
             strength := technicalSignal.strength,
             confidenceScore := technicalSignal.confidence,
             currentPrice := crypto.currentPrice,
             targetPrice := some targetPrice, stopLoss := some stopLoss,
             reasoning := technicalSignal.reasoning,
             createdAt := now, isActive := true,
             performancePercentage := 0, updatedAt := now })

/-- The `Signal` interface of `Dashboard.tsx`. -/
structure DashboardSignal where
  id : String
  symbol : String
  signalType : SignalKind
  strength : SignalStrength
  confidenceScore : ℚ
  currentPrice : ℚ
  targetPrice : Option ℚ
  stopLoss : Option ℚ
  reasoning : String
  createdAt : String
  deriving Repr, DecidableEq

/-- `generateSignals` of `Dashboard.tsx` (lines 157–253): takes the first
8 snapshots, loops over the first `min 5` of them, classifies each, and
pushes a signal record for every one — HOLD included, with `undefined`
target and stop-loss.  Randomness and fresh ids are oracles as in
`generateNewSignals`. -/
def generateSignalsDashboard (cryptos : List Cryptocurrency)
    (rands : ℕ → ℚ × ℚ) (freshId : ℕ → String) (now : String) :
    List DashboardSignal :=
  let topCryptos := cryptos.take 8
  (topCryptos.take 5).enum.map (fun ic =>
    let i : ℕ := ic.1
    let crypto := ic.2
    let technicalSignal := generateTechnicalSignal (toMarket crypto ((i : ℚ) + 1))
    let targetPrice :=
      if technicalSignal.signal = SignalKind.BUY then
        some (crypto.currentPrice * (1 + (rands i).1 * 0.15 + 0.05))
      else if technicalSignal.signal = SignalKind.SELL then
        some (crypto.currentPrice * (1 - (rands i).1 * 0.15 - 0.05))
      else none
    let stopLoss :=
      if technicalSignal.signal = SignalKind.BUY then
        some (crypto.currentPrice * (1 - (rands i).2 * 0.08 - 0.02))
      else if technicalSignal.signal = SignalKind.SELL then
        some (crypto.currentPrice * (1 + (rands i).2 * 0.08 + 0.02))
      else none
    { id := freshId i, symbol := crypto.symbol,
      signalType := technicalSignal.signal,
      strength := technicalSignal.strength,
      confidenceScore := technicalSignal.confidence,
      currentPrice := crypto.currentPrice,
      targetPrice := targetPrice, stopLoss := stopLoss,
      reasoning := technicalSignal.reasoning, createdAt := now })

/-- Observable trace of one `fetchWithRetry` call: the value returned (or
`none` for a thrown error), the `setTimeout` waits performed between
attempts (milliseconds, in order), and how many fetch attempts ran. -/
structure FetchTrace (α : Type) where
  result : Option α
  delays : List ℕ
  attemptsMade : ℕ
  deriving Repr, DecidableEq

/-- The `for (let i = 0; i < retries; i++)` loop of
`CryptoApiService.fetchWithRetry` (`cryptoApi.ts`, lines 49–71), with the
network modelled as an oracle `attempt : ℕ → Option α` (per attempt index:
`some` parsed body or `none` for a failed request).  On failure at the
last attempt index (`i === retries - 1`) the error is rethrown with no
wait; otherwise the code waits `Math.pow(2, i) * 1000` ms and retries.
The first argument is fuel, `retries - i` at entry. -/
def fetchWithRetryGo (attempt : ℕ → Option α) (retries : ℕ) :
    ℕ → ℕ → FetchTrace α
  | 0, _ => { result := none, delays := [], attemptsMade := 0 }
  | fuel + 1, i =>
    match attempt i with
    | some d => { result := some d, delays := [], attemptsMade := 1 }
    | none =>
      if i = retries - 1 then { result := none, delays := [], attemptsMade := 1 }
      else
        let rest := fetchWithRetryGo attempt retries fuel (i + 1)
        { result := rest.result, delays := 2 ^ i * 1000 :: rest.delays,
          attemptsMade := rest.attemptsMade + 1 }

/-- `CryptoApiService.fetchWithRetry` with its default `retries = 3`. -/
def fetchWithRetry (attempt : ℕ → Option α) (retries : ℕ := 3) : FetchTrace α :=
  fetchWithRetryGo attempt retries retries 0

/-- `CryptoApiService.getFallbackData` (`cryptoApi.ts`, lines 132–275):
the built-in sample of 5 well-known assets with hard-coded values.  The
impure `new Date().toISOString()` in each `last_updated` field is the
parameter `now`. -/
def getFallbackData (now : String) : List CoinGeckoMarket :=
  [{ id := "bitcoin", symbol := "btc", name := "Bitcoin",
     image := "https://assets.coingecko.com/coins/images/1/large/bitcoin.png",
     current_price := 43250.00, market_cap := 847500000000,
     market_cap_rank := 1, fully_diluted_valuation := some 908250000000,
     total_volume := 18500000000, high_24h := 44100.00, low_24h := 42800.00,
     price_change_24h := 450.00, price_change_percentage_24h := 1.05,
     market_cap_change_24h := 8850000000,
     market_cap_change_percentage_24h := 1.05,
     circulating_supply := 19600000, total_supply := some 21000000,
     max_supply := some 21000000, ath := 69045,
     ath_change_percentage := -37.4, ath_date := "2021-11-10T14:24:11.849Z",
     atl := 67.81, atl_change_percentage := 63650.8,
     atl_date := "2013-07-06T00:00:00.000Z", roi := none,
     last_updated := now },
   { id := "ethereum", symbol := "eth", name := "Ethereum",
     image := "https://assets.coingecko.com/coins/images/279/large/ethereum.png",
     current_price := 2650.00, market_cap := 318500000000,
     market_cap_rank := 2, fully_diluted_valuation := some 318500000000,
     total_volume := 12800000000, high_24h := 2720.00, low_24h := 2580.00,
     price_change_24h := 35.50, price_change_percentage_24h := 1.36,
     market_cap_change_24h := 4270000000,
     market_cap_change_percentage_24h := 1.36,
     circulating_supply := 120280000, total_supply := some 120280000,
     max_supply := none, ath := 4878.26, ath_change_percentage := -45.7,
     ath_date := "2021-11-10T14:24:19.604Z", atl := 0.432979,
     atl_change_percentage := 611850.1,
     atl_date := "2015-10-20T00:00:00.000Z", roi := none,
     last_updated := now },
   { id := "binancecoin", symbol := "bnb", name := "BNB",
     image := "https://assets.coingecko.com/coins/images/825/large/bnb-icon2_2x.png",
     current_price := 315.50, market_cap := 47200000000,
     market_cap_rank := 3, fully_diluted_valuation := some 47200000000,
     total_volume := 1850000000, high_24h := 322.00, low_24h := 308.50,
     price_change_24h := 4.20, price_change_percentage_24h := 1.35,
     market_cap_change_24h := 628000000,
     market_cap_change_percentage_24h := 1.35,
     circulating_supply := 149500000, total_supply := some 149500000,
     max_supply := some 200000000, ath := 686.31,
     ath_change_percentage := -54.0, ath_date := "2021-05-10T07:24:17.097Z",
     atl := 0.0398177, atl_change_percentage := 792150.5,
     atl_date := "2017-10-19T00:00:00.000Z", roi := none,
     last_updated := now },
   { id := "solana", symbol := "sol", name := "Solana",
     image := "https://assets.coingecko.com/coins/images/4128/large/solana.png",
     current_price := 98.50, market_cap := 44800000000,
     market_cap_rank := 4, fully_diluted_valuation := some 56200000000,
     total_volume := 2150000000, high_24h := 102.50, low_24h := 95.20,
     price_change_24h := 2.80, price_change_percentage_24h := 2.93,
     market_cap_change_24h := 1270000000,
     market_cap_change_percentage_24h := 2.93,
     circulating_supply := 454800000, total_supply := some 570500000,
     max_supply := none, ath := 259.96, ath_change_percentage := -62.1,
     ath_date := "2021-11-06T21:54:35.825Z", atl := 0.500801,
     atl_change_percentage := 19560.8,
     atl_date := "2020-05-11T19:35:23.449Z", roi := none,
     last_updated := now },
   { id := "cardano", symbol := "ada", name := "Cardano",
     image := "https://assets.coingecko.com/coins/images/975/large/cardano.png",
     current_price := 0.485, market_cap := 17200000000,
     market_cap_rank := 5, fully_diluted_valuation := some 21800000000,
     total_volume := 485000000, high_24h := 0.495, low_24h := 0.472,
     price_change_24h := 0.008, price_change_percentage_24h := 1.68,
     market_cap_change_24h := 284000000,
     market_cap_change_percentage_24h := 1.68,
     circulating_supply := 35450000000, total_supply := some 45000000000,
     max_supply := some 45000000000, ath := 3.09,
     ath_change_percentage := -84.3, ath_date := "2021-09-02T06:00:10.474Z",
     atl := 0.01925275, atl_change_percentage := 2420.1,
     atl_date := "2020-03-13T02:22:55.391Z", roi := none,
     last_updated := now }]

/-- The `for (let page = 1; ...)` loop of the `limit > 250` branch of
`getTopCryptocurrencies`: accumulate pages, abort (`none`, a thrown
error) when a page's `fetchWithRetry` throws, break early once `limit`
rows are collected.  Fuel is `pages - page + 1` at entry. -/
def pagesLoopGo (fetchPage : ℕ → ℕ → Option (List CoinGeckoMarket))
    (limit : ℕ) : ℕ → ℕ → List CoinGeckoMarket → Option (List CoinGeckoMarket)
  | 0, _, results => some results
  | fuel + 1, page, results =>
    match (fetchWithRetry (fetchPage page) 3).result with
    | none => none
    | some pageResults =>
      let results := results ++ pageResults
      if limit ≤ results.length then some results
      else pagesLoopGo fetchPage limit fuel (page + 1) results

/-- `CryptoApiService.getTopCryptocurrencies` (`cryptoApi.ts`, lines
73–99): one `fetchWithRetry` call for `limit ≤ 250`, the paged loop
otherwise; any error caught at the top level yields the fallback sample.
The network is the oracle `fetchPage : page → attempt → Option body`. -/
def getTopCryptocurrencies (fetchPage : ℕ → ℕ → Option (List CoinGeckoMarket))
    (now : String) (limit : ℕ := 20) : List CoinGeckoMarket :=
  if limit ≤ 250 then
    match (fetchWithRetry (fetchPage 1) 3).result with
    | some data => data
    | none => getFallbackData now
  else
    let perPage := 250
    let pages := (limit + perPage - 1) / perPage
    match pagesLoopGo fetchPage limit pages 1 [] with
    | some results => results.take limit
    | none => getFallbackData now

/-! ## Theorems -/

/-- C1: for every snapshot with a positive market cap,
`generateTechnicalSignal` returns exactly the (kind, strength, confidence)
row of the five-row decision table selected top-to-bottom with first match
winning, where the volume condition is read as volume / marketCap > 0.1:
pct > 5 ∧ volRatio > 0.1 ⇒ BUY/STRONG/85; else pct > 2 ⇒ BUY/MODERATE/70;
else pct < -5 ∧ volRatio > 0.1 ⇒ SELL/STRONG/80; else pct < -2 ⇒
SELL/MODERATE/65; otherwise HOLD with strength MODERATE iff |pct| > 1 else
WEAK, confidence 60. -/
theorem generateTechnicalSignal_matches_table (crypto : CoinGeckoMarket)
    (h : 0 < crypto.market_cap) :
    ((generateTechnicalSignal crypto).signal,
      (generateTechnicalSignal crypto).strength,
      (generateTechnicalSignal crypto).confidence) =
    classifySpecTable crypto.price_change_percentage_24h
      (crypto.total_volume / crypto.market_cap) := by
  have hvol : (crypto.total_volume / crypto.market_cap > 0.1) ↔
      (crypto.total_volume > crypto.market_cap * 0.1) := by
    rw [gt_iff_lt, gt_iff_lt, lt_div_iff₀ h, mul_comm]
  simp only [generateTechnicalSignal, classifySpecTable, hvol]
  split_ifs <;> rfl

/-- Witness for C1 at a concrete snapshot. -/
theorem generateTechnicalSignal_matches_table_witness :
    0 < (mkMarket 6 1 1).market_cap ∧
    ((generateTechnicalSignal (mkMarket 6 1 1)).signal,
      (generateTechnicalSignal (mkMarket 6 1 1)).strength,
      (generateTechnicalSignal (mkMarket 6 1 1)).confidence) =
    classifySpecTable (mkMarket 6 1 1).price_change_percentage_24h
      ((mkMarket 6 1 1).total_volume / (mkMarket 6 1 1).market_cap) :=
  ⟨by norm_num [mkMarket],
   generateTechnicalSignal_matches_table (mkMarket 6 1 1) (by norm_num [mkMarket])⟩

/-- C9: `generateTechnicalSignal` is deterministic — any two snapshots
agreeing on the three numeric inputs it reads (24h percentage change,
volume, market cap) produce equal kind, strength, confidence and
reasoning string. -/
theorem generateTechnicalSignal_deterministic (a b : CoinGeckoMarket)
    (hpct : a.price_change_percentage_24h = b.price_change_percentage_24h)
    (hvol : a.total_volume = b.total_volume)
    (hcap : a.market_cap = b.market_cap) :
    generateTechnicalSignal a = generateTechnicalSignal b := by
  simp only [generateTechnicalSignal, hpct, hvol, hcap]

/-- Witness for C9: two snapshots differing only in cosmetic fields. -/
theorem generateTechnicalSignal_deterministic_witness :
    generateTechnicalSignal (mkMarket 6 1 1) =
      generateTechnicalSignal { mkMarket 6 1 1 with name := "Other", id := "other" } :=
  generateTechnicalSignal_deterministic _ _ rfl rfl rfl

/-! ### Concrete fixtures used by witnesses and counterexamples -/

/-- Fixture snapshot: symbol BTC, price 100, 24h change +6%, volume equal
to market cap (volRatio 1). -/
def cBull : Cryptocurrency :=
  { id := "bitcoin", symbol := "BTC", name := "Bitcoin", currentPrice := 100,
    priceChange24h := 6, priceChangePercentage24h := 6, marketCap := 1,
    volume24h := 1, lastUpdated := "2024-01-01T00:00:00.000Z", image := "" }

/-- Fixture snapshot: `cBull` repriced at `p`. -/
def cAt (p : ℚ) : Cryptocurrency := { cBull with currentPrice := p }

/-- Fixture open BUY signal: entry 100, target 110, stop-loss 95. -/
def sBuy : LiveSignal :=
  { id := "sig1", symbol := "BTC", signalType := SignalKind.BUY,
    strength := SignalStrength.STRONG, confidenceScore := 85,
    currentPrice := 100, targetPrice := some 110, stopLoss := some 95,
    reasoning := "r", createdAt := "t0", isActive := true,
    performancePercentage := 0, updatedAt := "t0" }

/-- Fixture open BUY signal with a wide target/stop (200/50), so reticks
near the entry never close it. -/
def sWide : LiveSignal := { sBuy with targetPrice := some 200, stopLoss := some 50 }

/-- Fixture open signal whose target and stop-loss are both exactly 0. -/
def sZeroBounds : LiveSignal := { sBuy with targetPrice := some 0, stopLoss := some 0 }

/-- Fixture closed signal. -/
def sClosed : LiveSignal := { sBuy with isActive := false }

/-- Fixture open signal whose symbol matches no snapshot in the fixture
lists. -/
def sUnmatched : LiveSignal := { sBuy with symbol := "XYZ" }

/-! ### Lifecycle theorems -/

/-- C10: a target price or stop-loss of exactly 0 is falsy in the
JavaScript truthiness guard, so no retick at any current price ever
produces the `hit_target` (respectively `hit_stop_loss`) close status for
such a signal. -/
theorem zero_target_or_stop_never_closes (signal : LiveSignal) :
    (signal.targetPrice = some 0 →
      ∀ currentPrice : ℚ, tickStatus signal currentPrice ≠ "hit_target") ∧
    (signal.stopLoss = some 0 →
      ∀ currentPrice : ℚ, tickStatus signal currentPrice ≠ "hit_stop_loss") := by
  constructor
  · intro h p
    simp only [tickStatus, h, truthy]
    split_ifs <;> simp_all
  · intro h p
    simp only [tickStatus, h, truthy]
    split_ifs <;> simp_all

/-- Witness for C10 at a concrete signal with zero target and stop. -/
theorem zero_target_or_stop_never_closes_witness :
    tickStatus sZeroBounds 105 ≠ "hit_target" ∧
    tickStatus sZeroBounds 105 ≠ "hit_stop_loss" :=
  ⟨(zero_target_or_stop_never_closes sZeroBounds).1 rfl 105,
   (zero_target_or_stop_never_closes sZeroBounds).2 rfl 105⟩

/-- C4: an open signal whose symbol has no matching snapshot is returned
by `retick` entirely unchanged (every field identical), and every other
signal in the list is still processed through its own update step. -/
theorem retick_unmatched_unchanged (cryptos : List Cryptocurrency)
    (now : String) (signals : List LiveSignal) (i : ℕ) (s : LiveSignal)
    (hs : signals[i]? = some s)
    (hfind : cryptos.find? (fun c => c.symbol == s.symbol) = none) :
    (retick cryptos now signals)[i]? = some s ∧
    ∀ (j : ℕ) (s' : LiveSignal), signals[j]? = some s' →
      (retick cryptos now signals)[j]? = some (updateSignalStep cryptos now s') := by
  have hmap : ∀ (j : ℕ) (s' : LiveSignal), signals[j]? = some s' →
      (retick cryptos now signals)[j]? = some (updateSignalStep cryptos now s') := by
    intro j s' hj
    simp [retick, List.getElem?_map, hj]
  have hstep : updateSignalStep cryptos now s = s := by
    unfold updateSignalStep
    rw [hfind]
    split <;> rfl
  refine ⟨?_, hmap⟩
  rw [hmap i s hs, hstep]

/-- Witness for C4: a one-signal list whose symbol is absent from the
snapshot list passes through a retick unchanged. -/
theorem retick_unmatched_unchanged_witness :
    (retick [cAt 108] "t1" [sUnmatched])[0]? = some sUnmatched ∧
    (retick [cAt 108] "t1" [sUnmatched])[0]? =
      some (updateSignalStep [cAt 108] "t1" sUnmatched) :=
  ⟨(retick_unmatched_unchanged [cAt 108] "t1" [sUnmatched] 0 sUnmatched rfl (by decide)).1,
   (retick_unmatched_unchanged [cAt 108] "t1" [sUnmatched] 0 sUnmatched rfl
      (by decide)).2 0 sUnmatched rfl⟩

/-- C5: once a signal's open flag is false it stays false across every
sequence of retick passes, whatever snapshot lists and timestamps those
passes use. -/
theorem closed_signals_never_reopen (ticks : List (List Cryptocurrency × String))
    (signals : List LiveSignal) (i : ℕ) (s : LiveSignal)
    (hs : signals[i]? = some s) (hclosed : s.isActive = false) :
    ((retickSeq ticks signals)[i]?.map LiveSignal.isActive) = some false := by
  induction ticks generalizing signals s with
  | nil =>
    simp [retickSeq, hs, hclosed]
  | cons t ts ih =>
    have hstep : (retick t.1 t.2 signals)[i]? = some (updateSignalStep t.1 t.2 s) := by
      simp [retick, List.getElem?_map, hs]
    have hstill : (updateSignalStep t.1 t.2 s).isActive = false := by
      simp [updateSignalStep, hclosed]
    exact ih _ _ hstep hstill

/-- Witness for C5: a closed signal stays closed across two reticks that
would otherwise hit its target. -/
theorem closed_signals_never_reopen_witness :
    ((retickSeq [([cAt 120], "t1"), ([cAt 120], "t2")] [sClosed])[0]?.map
      LiveSignal.isActive) = some false :=
  closed_signals_never_reopen [([cAt 120], "t1"), ([cAt 120], "t2")]
    [sClosed] 0 sClosed rfl rfl

/-- C3: one retick step on an open signal with nonzero target and
stop-loss and a matching snapshot closes it with reason `hit_target` iff
the price crossed the target in the favorable direction (≥ target for
BUY, ≤ target for SELL, checked first), else with reason `hit_stop_loss`
iff the price crossed the stop-loss in the adverse direction (≤ stop for
BUY, ≥ stop for SELL), and otherwise leaves it open with updated
performance and timestamp. -/
theorem retick_close_rule (cryptos : List Cryptocurrency) (now : String)
    (s : LiveSignal) (crypto : Cryptocurrency) (t l : ℚ)
    (hopen : s.isActive = true)
    (ht : s.targetPrice = some t) (ht0 : t ≠ 0)
    (hl : s.stopLoss = some l) (hl0 : l ≠ 0)
    (hfind : cryptos.find? (fun c => c.symbol == s.symbol) = some crypto) :
    (s.signalType = SignalKind.BUY →
      (tickStatus s crypto.currentPrice = "hit_target" ↔ t ≤ crypto.currentPrice) ∧
      (¬ t ≤ crypto.currentPrice →
        (tickStatus s crypto.currentPrice = "hit_stop_loss" ↔ crypto.currentPrice ≤ l)) ∧
      ((updateSignalStep cryptos now s).isActive = false ↔
        (t ≤ crypto.currentPrice ∨ crypto.currentPrice ≤ l)) ∧
      (¬ t ≤ crypto.currentPrice → ¬ crypto.currentPrice ≤ l →
        updateSignalStep cryptos now s =
          { s with currentPrice := crypto.currentPrice,
                   performancePercentage :=
                     (crypto.currentPrice - s.currentPrice) / s.currentPrice * 100,
                   updatedAt := now })) ∧
    (s.signalType = SignalKind.SELL →
      (tickStatus s crypto.currentPrice = "hit_target" ↔ crypto.currentPrice ≤ t) ∧
      (¬ crypto.currentPrice ≤ t →
        (tickStatus s crypto.currentPrice = "hit_stop_loss" ↔ l ≤ crypto.currentPrice)) ∧
      ((updateSignalStep cryptos now s).isActive = false ↔
        (crypto.currentPrice ≤ t ∨ l ≤ crypto.currentPrice)) ∧
      (¬ crypto.currentPrice ≤ t → ¬ l ≤ crypto.currentPrice →
        updateSignalStep cryptos now s =
          { s with currentPrice := crypto.currentPrice,
                   performancePercentage :=
                     (s.currentPrice - crypto.currentPrice) / s.currentPrice * 100,
                   updatedAt := now })) := by
  constructor
  · intro hk
    have hstat : tickStatus s crypto.currentPrice =
        if t ≤ crypto.currentPrice then "hit_target"
        else if crypto.currentPrice ≤ l then "hit_stop_loss" else "active" := by
      simp [tickStatus, ht, hl, truthy, ht0, hl0, hk]
    have hstep : updateSignalStep cryptos now s =
        { s with currentPrice := crypto.currentPrice,
                 performancePercentage :=
                   (crypto.currentPrice - s.currentPrice) / s.currentPrice * 100,
                 isActive := (tickStatus s crypto.currentPrice == "active"),
                 updatedAt := now } := by
      simp [updateSignalStep, hopen, hfind, hk]
    refine ⟨?_, ?_, ?_, ?_⟩
    · rw [hstat]; split_ifs with h1 h2 <;> simp [h1]
    · intro h1
      rw [hstat, if_neg h1]; split_ifs with h2 <;> simp [h2]
    · rw [hstep, hstat]; split_ifs with h1 h2 <;> simp_all
    · intro h1 h2
      rw [hstep, hstat, if_neg h1, if_neg h2]
      simp [hopen]
  · intro hk
    have hstat : tickStatus s crypto.currentPrice =
        if crypto.currentPrice ≤ t then "hit_target"
        else if l ≤ crypto.currentPrice then "hit_stop_loss" else "active" := by
      simp [tickStatus, ht, hl, truthy, ht0, hl0, hk]
    have hstep : updateSignalStep cryptos now s =
        { s with currentPrice := crypto.currentPrice,
                 performancePercentage :=
                   (s.currentPrice - crypto.currentPrice) / s.currentPrice * 100,
                 isActive := (tickStatus s crypto.currentPrice == "active"),
                 updatedAt := now } := by
      simp [updateSignalStep, hopen, hfind, hk]
    refine ⟨?_, ?_, ?_, ?_⟩
    · rw [hstat]; split_ifs with h1 h2 <;> simp [h1]
    · intro h1
      rw [hstat, if_neg h1]; split_ifs with h2 <;> simp [h2]
    · rw [hstep, hstat]; split_ifs with h1 h2 <;> simp_all
    · intro h1 h2
      rw [hstep, hstat, if_neg h1, if_neg h2]
      simp [hopen]

/-- Witness for C3: the fixture BUY signal (entry 100, target 110, stop
95) at current price 105 neither hits target nor stop-loss, and one
retick leaves it open with performance +5% and a fresh timestamp. -/
theorem retick_close_rule_witness :
    (tickStatus sBuy 105 = "hit_target" ↔ (110 : ℚ) ≤ 105) ∧
    (tickStatus sBuy 105 = "hit_stop_loss" ↔ (105 : ℚ) ≤ 95) ∧
    updateSignalStep [cAt 105] "t1" sBuy =
      { sBuy with currentPrice := 105,
                  performancePercentage := (105 - 100) / 100 * 100,
                  updatedAt := "t1" } := by
  have h := (retick_close_rule [cAt 105] "t1" sBuy (cAt 105) 110 95 rfl rfl
    (by norm_num) rfl (by norm_num) (by decide)).1 rfl
  exact ⟨h.1, h.2.1 (by norm_num [cAt, cBull]),
    h.2.2.2 (by norm_num [cAt, cBull]) (by norm_num [cAt, cBull])⟩

/-- C2 (refuted, code bug): the signal record has no immutable entry
field — `updateSignalPerformance` reads `signal.currentPrice` as the
entry (`initialPrice`) and then overwrites that same field with the new
price, so from the second retick on the performance is computed against
the previous tick's price, not the creation entry.  Concretely: a BUY
signal created at 100 with a wide target/stop, reticked twice at price
108, reports performance 0% after the second retick (the claim demands
+8%), and its stored price field has moved from 100 to 108. -/
theorem entry_price_mutated_by_retick :
    sWide.currentPrice = 100 ∧
    updateSignalStep [cAt 108] "t1" sWide =
      { sWide with currentPrice := 108, performancePercentage := 8,
                   updatedAt := "t1" } ∧
    updateSignalStep [cAt 108] "t2" (updateSignalStep [cAt 108] "t1" sWide) =
      { sWide with currentPrice := 108, performancePercentage := 0,
                   updatedAt := "t2" } ∧
    (0 : ℚ) ≠ (108 - 100) / 100 * 100 := by
  have hstep1 : updateSignalStep [cAt 108] "t1" sWide =
      { sWide with currentPrice := 108, performancePercentage := 8,
                   updatedAt := "t1" } := by
    norm_num [updateSignalStep, tickStatus, truthy, sWide, sBuy, cAt, cBull]
    rfl
  have hstep2 : updateSignalStep [cAt 108] "t2"
      ({ sWide with currentPrice := 108, performancePercentage := 8,
                    updatedAt := "t1" } : LiveSignal) =
      { sWide with currentPrice := 108, performancePercentage := 0,
                   updatedAt := "t2" } := by
    norm_num [updateSignalStep, tickStatus, truthy, sWide, sBuy, cAt, cBull]
    rfl
  exact ⟨rfl, hstep1, by rw [hstep1, hstep2], by norm_num⟩

/-! ### Generator fixtures -/

/-- Random-draw oracle that always answers 0 (a legal `Math.random()`
value). -/
def randsZero : ℕ → ℚ × ℚ := fun _ => (0, 0)

/-- Fresh-id oracle standing in for the `Date.now()`-based id template. -/
def mkSignalId (i : ℕ) : String := "live_signal_" ++ toString i

/-- Fixture snapshot with a flat 24h change (0%), classified HOLD. -/
def cFlat : Cryptocurrency :=
  { cBull with priceChange24h := 0, priceChangePercentage24h := 0 }

/-- The signal `generateNewSignals` mints from `[cBull]` with all random
draws 0: a STRONG BUY at entry 100 with target 103 and stop-loss 98. -/
def sMinted : LiveSignal :=
  { id := "live_signal_0", symbol := "BTC", signalType := SignalKind.BUY,
    strength := SignalStrength.STRONG, confidenceScore := 85,
    currentPrice := 100, targetPrice := some 103, stopLoss := some 98,
    reasoning := "Strong bullish momentum with 6.00% gain and high volume. Technical indicators suggest continued upward movement.",
    createdAt := "now", isActive := true, performancePercentage := 0,
    updatedAt := "now" }

/-- The signal `generateSignalsDashboard` mints from `[cBull]` with all
random draws 0: a STRONG BUY at entry 100 with target 105 and stop 98. -/
def dMinted : DashboardSignal :=
  { id := "live_signal_0", symbol := "BTC", signalType := SignalKind.BUY,
    strength := SignalStrength.STRONG, confidenceScore := 85,
    currentPrice := 100, targetPrice := some 105, stopLoss := some 98,
    reasoning := "Strong bullish momentum with 6.00% gain and high volume. Technical indicators suggest continued upward movement.",
    createdAt := "now" }

theorem jsToFixed2_six : jsToFixed2 6 = "6.00" := by
  have h2 : ⌊(6 : ℚ) * 100 + 1 / 2⌋ = 600 := by
    rw [Int.floor_eq_iff]
    norm_num
  simp only [jsToFixed2, h2]
  norm_num
  rfl

theorem generateNewSignals_cBull :
    generateNewSignals [cBull] randsZero mkSignalId "now" = [sMinted] := by
  norm_num [generateNewSignals, sortByAbsChange, insertByAbsChange, toMarket,
    cBull, generateTechnicalSignal, randsZero, mkSignalId, sMinted,
    jsToFixed2_six, List.enum, List.filterMap]
  rfl

theorem generateSignalsDashboard_cBull :
    generateSignalsDashboard [cBull] randsZero mkSignalId "now" = [dMinted] := by
  norm_num [generateSignalsDashboard, toMarket, cBull, generateTechnicalSignal,
    randsZero, mkSignalId, dMinted, jsToFixed2_six, List.enum]
  exact ⟨rfl, rfl⟩

/-- C6 (amended): the live-feed generator `generateNewSignals` never
returns a signal of kind HOLD — the loop skips every HOLD
classification. -/
theorem generateNewSignals_never_hold (cryptos : List Cryptocurrency)
    (rands : ℕ → ℚ × ℚ) (freshId : ℕ → String) (now : String) :
    (generateNewSignals cryptos rands freshId now).all
      (fun s => s.signalType != SignalKind.HOLD) = true := by
  rw [List.all_eq_true]
  intro s hs
  simp only [generateNewSignals, List.mem_filterMap] at hs
  obtain ⟨ic, hmem, hf⟩ := hs
  split at hf
  · exact Option.noConfusion hf
  · next hk =>
    injection hf with hf
    subst hf
    simpa using hk

/-- C6 counterexample: the dashboard generator `generateSignals` does not
skip HOLD — from a single flat snapshot (0% change) it returns exactly one
signal, of kind HOLD, refuting the claim for the cited dashboard
generation step. -/
theorem generateSignalsDashboard_returns_hold :
    (generateSignalsDashboard [cFlat] randsZero mkSignalId "now").map
      (fun s => s.signalType) = [SignalKind.HOLD] ∧
    SignalKind.HOLD ≠ SignalKind.BUY ∧ SignalKind.HOLD ≠ SignalKind.SELL := by
  refine ⟨?_, by decide, by decide⟩
  norm_num [generateSignalsDashboard, toMarket, cFlat, cBull,
    generateTechnicalSignal, List.enum]

/-- C7 counterexample: with the random draw 0 (a legal value in [0,1))
the live-feed generator mints a BUY signal at entry 100 whose target is
exactly 103 = 100 × 1.03, which does not lie strictly inside
(100 × 1.03, 100 × 1.15). -/
theorem target_bounds_counterexample :
    (generateNewSignals [cBull] randsZero mkSignalId "now").map
      (fun s => (s.signalType, s.currentPrice, s.targetPrice)) =
      [(SignalKind.BUY, 100, some 103)] ∧
    ¬ ((100 : ℚ) * 1.03 < 103) := by
  refine ⟨?_, by norm_num⟩
  rw [generateNewSignals_cBull]
  norm_num [sMinted]

/-- C7 (amended): for random draws in [0,1) and a positive entry price,
the live-feed generator synthesizes, for a BUY, a target in
[entry×1.03, entry×1.15) and a stop-loss in (entry×0.92, entry×0.98]
(SELL mirrored: target in (entry×0.85, entry×0.97], stop-loss in
[entry×1.02, entry×1.08)); the dashboard generator uses
[entry×1.05, entry×1.20) and (entry×0.90, entry×0.98] for a BUY
(SELL mirrored: (entry×0.80, entry×0.95] and [entry×1.02, entry×1.10)). -/
theorem generated_target_stop_bounds (cryptos : List Cryptocurrency)
    (rands : ℕ → ℚ × ℚ) (freshId : ℕ → String) (now : String)
    (hr : ∀ i : ℕ, 0 ≤ (rands i).1 ∧ (rands i).1 < 1 ∧
      0 ≤ (rands i).2 ∧ (rands i).2 < 1) :
    (∀ s ∈ generateNewSignals cryptos rands freshId now, 0 < s.currentPrice →
      (s.signalType = SignalKind.BUY →
        s.currentPrice * 1.03 ≤ s.targetPrice.getD 0 ∧
        s.targetPrice.getD 0 < s.currentPrice * 1.15 ∧
        s.currentPrice * 0.92 < s.stopLoss.getD 0 ∧
        s.stopLoss.getD 0 ≤ s.currentPrice * 0.98) ∧
      (s.signalType = SignalKind.SELL →
        s.currentPrice * 0.85 < s.targetPrice.getD 0 ∧
        s.targetPrice.getD 0 ≤ s.currentPrice * 0.97 ∧
        s.currentPrice * 1.02 ≤ s.stopLoss.getD 0 ∧
        s.stopLoss.getD 0 < s.currentPrice * 1.08)) ∧
    (∀ d ∈ generateSignalsDashboard cryptos rands freshId now,
      0 < d.currentPrice →
      (d.signalType = SignalKind.BUY →
        d.currentPrice * 1.05 ≤ d.targetPrice.getD 0 ∧
        d.targetPrice.getD 0 < d.currentPrice * 1.20 ∧
        d.currentPrice * 0.90 < d.stopLoss.getD 0 ∧
        d.stopLoss.getD 0 ≤ d.currentPrice * 0.98) ∧
      (d.signalType = SignalKind.SELL →
        d.currentPrice * 0.80 < d.targetPrice.getD 0 ∧
        d.targetPrice.getD 0 ≤ d.currentPrice * 0.95 ∧
        d.currentPrice * 1.02 ≤ d.stopLoss.getD 0 ∧
        d.stopLoss.getD 0 < d.currentPrice * 1.10)) := by
  constructor
  · intro s hs he
    simp only [generateNewSignals, List.mem_filterMap] at hs
    obtain ⟨ic, hmem, hf⟩ := hs
    obtain ⟨h01, h11, h02, h12⟩ := hr ic.1
    split at hf
    · exact Option.noConfusion hf
    · next hk =>
      injection hf with hf
      subst hf
      dsimp only at he ⊢
      rcases hsig : (generateTechnicalSignal (toMarket ic.2 1)).signal
      case HOLD => exact absurd hsig hk
      case BUY =>
        refine ⟨fun _ => ?_, fun hcon => ?_⟩
        · simp only [reduceCtorEq, reduceIte, ite_false, ite_true, Option.getD_some]
          refine ⟨?_, ?_, ?_, ?_⟩ <;>
            nlinarith [mul_nonneg he.le h01, mul_nonneg he.le h02,
              mul_lt_mul_of_pos_left h11 he, mul_lt_mul_of_pos_left h12 he]
        · exact absurd hcon (by decide)
      case SELL =>
        refine ⟨fun hcon => ?_, fun _ => ?_⟩
        · exact absurd hcon (by decide)
        · simp only [reduceCtorEq, reduceIte, ite_false, ite_true, Option.getD_some]
          refine ⟨?_, ?_, ?_, ?_⟩ <;>
            nlinarith [mul_nonneg he.le h01, mul_nonneg he.le h02,
              mul_lt_mul_of_pos_left h11 he, mul_lt_mul_of_pos_left h12 he]
  · intro d hd he
    simp only [generateSignalsDashboard, List.mem_map] at hd
    obtain ⟨ic, hmem, hf⟩ := hd
    obtain ⟨h01, h11, h02, h12⟩ := hr ic.1
    subst hf
    dsimp only at he ⊢
    rcases hsig : (generateTechnicalSignal (toMarket ic.2 ((ic.1 : ℚ) + 1))).signal
    case HOLD =>
      refine ⟨fun hcon => ?_, fun hcon => ?_⟩ <;>
        · exact absurd hcon (by decide)
    case BUY =>
      refine ⟨fun _ => ?_, fun hcon => ?_⟩
      · simp only [reduceCtorEq, reduceIte, ite_false, ite_true, Option.getD_some]
        refine ⟨?_, ?_, ?_, ?_⟩ <;>
          nlinarith [mul_nonneg he.le h01, mul_nonneg he.le h02,
            mul_lt_mul_of_pos_left h11 he, mul_lt_mul_of_pos_left h12 he]
      · exact absurd hcon (by decide)
    case SELL =>
      refine ⟨fun hcon => ?_, fun _ => ?_⟩
      · exact absurd hcon (by decide)
      · simp only [reduceCtorEq, reduceIte, ite_false, ite_true, Option.getD_some]
        refine ⟨?_, ?_, ?_, ?_⟩ <;>
          nlinarith [mul_nonneg he.le h01, mul_nonneg he.le h02,
            mul_lt_mul_of_pos_left h11 he, mul_lt_mul_of_pos_left h12 he]

/-- Witness for C7 (amended): the two concrete minted BUY signals from
`[cBull]` with draw 0 satisfy their respective bounds. -/
theorem generated_target_stop_bounds_witness :
    (sMinted.currentPrice * 1.03 ≤ sMinted.targetPrice.getD 0 ∧
     sMinted.targetPrice.getD 0 < sMinted.currentPrice * 1.15 ∧
     sMinted.currentPrice * 0.92 < sMinted.stopLoss.getD 0 ∧
     sMinted.stopLoss.getD 0 ≤ sMinted.currentPrice * 0.98) ∧
    (dMinted.currentPrice * 1.05 ≤ dMinted.targetPrice.getD 0 ∧
     dMinted.targetPrice.getD 0 < dMinted.currentPrice * 1.20 ∧
     dMinted.currentPrice * 0.90 < dMinted.stopLoss.getD 0 ∧
     dMinted.stopLoss.getD 0 ≤ dMinted.currentPrice * 0.98) := by
  have h := generated_target_stop_bounds [cBull] randsZero mkSignalId "now"
    (by intro i; norm_num [randsZero])
  refine ⟨(h.1 sMinted ?_ ?_).1 rfl, (h.2 dMinted ?_ ?_).1 rfl⟩
  · rw [generateNewSignals_cBull]
    exact List.mem_singleton.mpr rfl
  · norm_num [sMinted]
  · rw [generateSignalsDashboard_cBull]
    exact List.mem_singleton.mpr rfl
  · norm_num [dMinted]

/-- C8 counterexample: when every attempt fails, `fetchWithRetry` with its
default `retries = 3` performs exactly two waits, of 1000 ms and 2000 ms —
after the third (last) failed attempt the error is rethrown immediately,
so there is never a 4000 ms wait, refuting the claimed 1s, 2s, 4s
schedule. -/
theorem fetch_backoff_counterexample :
    (fetchWithRetry (α := List CoinGeckoMarket) (fun _ => none) 3).delays =
      [1000, 2000] ∧
    (fetchWithRetry (α := List CoinGeckoMarket) (fun _ => none) 3).attemptsMade = 3 ∧
    ([1000, 2000] : List ℕ) ≠ [1000, 2000, 4000] := by
  refine ⟨rfl, rfl, by decide⟩

/-- C8 (amended): when every underlying fetch attempt fails,
`getTopCryptocurrencies` (for any per-call limit ≤ 250, which covers its
default of 20 and every call site) makes exactly 3 attempts with waits of
1000 ms and 2000 ms between successive attempts, and returns the built-in
fallback sample of exactly 5 well-known assets rather than throwing or
returning an empty list. -/
theorem getTop_all_fail_returns_fallback
    (fetchPage : ℕ → ℕ → Option (List CoinGeckoMarket)) (now : String)
    (limit : ℕ) (hlim : limit ≤ 250)
    (hfail : ∀ page a, fetchPage page a = none) :
    getTopCryptocurrencies fetchPage now limit = getFallbackData now ∧
    (fetchWithRetry (fetchPage 1) 3).attemptsMade = 3 ∧
    (fetchWithRetry (fetchPage 1) 3).delays = [1000, 2000] ∧
    (getFallbackData now).length = 5 ∧
    (getFallbackData now).map (fun m => m.symbol) =
      ["btc", "eth", "bnb", "sol", "ada"] := by
  have htrace : fetchWithRetry (fetchPage 1) 3 =
      { result := none, delays := [1000, 2000], attemptsMade := 3 } := by
    simp [fetchWithRetry, fetchWithRetryGo, hfail]
  refine ⟨?_, by rw [htrace], by rw [htrace], rfl, rfl⟩
  simp [getTopCryptocurrencies, hlim, htrace]

/-- Witness for C8 (amended) at the all-failing oracle and the default
limit 20. -/
theorem getTop_all_fail_returns_fallback_witness :
    getTopCryptocurrencies (fun _ _ => none) "T" 20 = getFallbackData "T" ∧
    (fetchWithRetry (α := List CoinGeckoMarket) (fun _ => none) 3).attemptsMade = 3 ∧
    (fetchWithRetry (α := List CoinGeckoMarket) (fun _ => none) 3).delays = [1000, 2000] ∧
    (getFallbackData "T").length = 5 ∧
    (getFallbackData "T").map (fun m => m.symbol) =
      ["btc", "eth", "bnb", "sol", "ada"] :=
  getTop_all_fail_returns_fallback (fun _ _ => none) "T" 20 (by decide)
    (fun _ _ => rfl)

end CryptoBot
